import Mathlib

/-!
Verification of the H-orbital hydrogen-orbital visualization package.

This file gives a shallow embedding, in Lean 4, of the core numeric and
policy functions of the repository:

- `quantum_numbers.py` : `parse_quantum_numbers`
- `plotting.py`        : `resolve_scale`
- `modes.py`           : `evaluate_mode`
- `slicing.py`         : `build_plane_grid`, `cartesian_to_spherical`
- `analytic.py`        : `radial_wavefunction`, `spherical_harmonic`,
                         `hydrogen_wavefunction`
- `auto_settings.py`   : `auto_extent_a0`, `auto_plane_and_value`

Conventions of the embedding:

- Python machine floats are modelled as exact real numbers (`ℝ`); complex
  numpy arrays become `List ℂ`; elementwise numpy operations become
  `List.map` / `List.zipWith`.
- Python functions that can raise are modelled as `Except String`-valued
  functions; a raised exception becomes `.error` carrying (an abbreviation
  of) the exception message, and the error checks appear in the order in
  which the Python code would first raise.
- The scipy special functions `eval_genlaguerre` and `lpmv` (external
  library calls) are modelled by their defining recurrence / closed-form
  for the integer parameters the package uses.
- String formatting of floats (the `plane_label` field) is outside the
  real-number model; the label keeps only its string skeleton.
-/

/-! ## Small `Except` helpers used to reason about the error plumbing -/

@[simp] theorem except_bind_ok {ε α β : Type} (a : α) (f : α → Except ε β) :
    (Except.ok a : Except ε α).bind f = f a := rfl

@[simp] theorem except_bind_error {ε α β : Type} (e : ε) (f : α → Except ε β) :
    (Except.error e : Except ε α).bind f = Except.error e := rfl

@[simp] theorem except_map_ok {ε α β : Type} (f : α → β) (a : α) :
    Except.map f (Except.ok a : Except ε α) = Except.ok (f a) := rfl

@[simp] theorem except_map_error {ε α β : Type} (f : α → β) (e : ε) :
    Except.map f (Except.error e : Except ε α) = Except.error e := rfl

/-! ## `constants.py` -/

/-- Bohr radius in meters (`constants.BOHR_RADIUS`). -/
noncomputable def BOHR_RADIUS : ℝ := 5.29177210903e-11

/-! ## `quantum_numbers.py` -/

/-- Container for a validated `(n, l, m)` triple (`QuantumNumbers` dataclass).
Python ints are modelled as `ℤ`. -/
structure QuantumNumbers where
  n : ℤ
  l : ℤ
  m : ℤ
deriving DecidableEq, Repr

/-- The padded value list: `values + [0] * (3 - len(values))`. -/
def paddedValues (values : List ℤ) : List ℤ :=
  values ++ List.replicate (3 - values.length) 0

/-- `parse_quantum_numbers` from `quantum_numbers.py`; each `raise ValueError`
becomes `.error` with the source message. The Python locals `n, l, m`
(unpacked from the padded list) are written out as the three entries of
`paddedValues values`. -/
def parse_quantum_numbers (values : List ℤ) : Except String QuantumNumbers :=
  if ¬ (1 ≤ values.length ∧ values.length ≤ 3) then
    Except.error ("Please provide 1 to 3 quantum numbers: n [l] [m].")
  else if (paddedValues values).getD 0 0 < 1 then
    Except.error ("Principal quantum number n must be >= 1.")
  else if (paddedValues values).getD 1 0 < 0 then
    Except.error ("Angular momentum quantum number l must be >= 0.")
  else if (paddedValues values).getD 1 0 > (paddedValues values).getD 0 0 - 1 then
    Except.error ("Angular momentum quantum number l must satisfy l <= n - 1.")
  else if |(paddedValues values).getD 2 0| > (paddedValues values).getD 1 0 then
    Except.error ("Magnetic quantum number m must satisfy |m| <= l.")
  else
    Except.ok { n := (paddedValues values).getD 0 0, l := (paddedValues values).getD 1 0,
                m := (paddedValues values).getD 2 0 }

/-- The hydrogenic quantum-number invariants of the spec (section 4.1):
`n ≥ 1`, `0 ≤ l ≤ n − 1`, `|m| ≤ l`. -/
def validQN (n l m : ℤ) : Prop :=
  1 ≤ n ∧ 0 ≤ l ∧ l ≤ n - 1 ∧ |m| ≤ l

instance (n l m : ℤ) : Decidable (validQN n l m) := by
  unfold validQN; infer_instance

/-! ## `plotting.py` (scale policy only) -/

/-- `resolve_scale` from `plotting.py`. -/
def resolve_scale (mode scale : String) : String :=
  if scale = "auto" then (if mode = "density" then "log" else "symlog") else scale

/-! ## `modes.py` -/

/-- Result of `evaluate_mode`: either one real array or a `(real, imag)` pair. -/
inductive ModeData where
  | single (values : List ℝ)
  | pair (re im : List ℝ)

/-- `evaluate_mode` from `modes.py`; `np.abs(psi) ** 2` is `Complex.abs · ^ 2`,
`np.real` / `np.imag` are `Complex.re` / `Complex.im`, and the final
`raise ValueError(f"Unsupported render mode: {mode}")` becomes `.error`. -/
noncomputable def evaluate_mode (psi : List ℂ) (mode : String) : Except String ModeData :=
  if mode = "density" then Except.ok (ModeData.single (psi.map (fun z => Complex.abs z ^ 2)))
  else if mode = "real" then Except.ok (ModeData.single (psi.map Complex.re))
  else if mode = "imag" then Except.ok (ModeData.single (psi.map Complex.im))
  else if mode = "real_imag" then
    Except.ok (ModeData.pair (psi.map Complex.re) (psi.map Complex.im))
  else Except.error ("Unsupported render mode: " ++ mode)

/-! ## `slicing.py` -/

/-- `np.linspace start stop num` as a function of the index; for `num = 1`
Lean's `x / 0 = 0` convention reproduces numpy's `[start]`. -/
noncomputable def linspace (start stop : ℝ) (num : ℤ) (i : ℕ) : ℝ :=
  start + i * ((stop - start) / ((num : ℝ) - 1))

/-- Container for 2D slice geometry (`SliceGrid` dataclass); 2D arrays are
modelled as functions of the two indices (row `i`, column `j`), meaningful
for indices below `points`. -/
structure SliceGrid where
  u : ℕ → ℕ → ℝ
  v : ℕ → ℕ → ℝ
  x : ℕ → ℕ → ℝ
  y : ℕ → ℕ → ℝ
  z : ℕ → ℕ → ℝ
  u_label : String
  v_label : String
  plane_label : String

/-- The pure grid construction of `build_plane_grid` (everything after
`np.linspace` succeeded): `u, v = np.meshgrid(axis, axis)` gives
`u[i][j] = axis[j]` and `v[i][j] = axis[i]`. The `%g`-formatted number in
`plane_label` is outside the real-number model, so only the string skeleton
of the label is kept. -/
noncomputable def buildGridCore (plane : String) (value_a0 extent_a0 : ℝ) (points : ℤ) :
    SliceGrid :=
  let axis := linspace (-extent_a0) extent_a0 points
  let u : ℕ → ℕ → ℝ := fun _ j => axis j
  let v : ℕ → ℕ → ℝ := fun i _ => axis i
  let value := value_a0 * BOHR_RADIUS
  if plane = "x" then
    { u := u, v := v, x := fun _ _ => value, y := fun i j => u i j * BOHR_RADIUS,
      z := fun i j => v i j * BOHR_RADIUS, u_label := "Y", v_label := "Z",
      plane_label := plane ++ "= a0" }
  else if plane = "y" then
    { u := u, v := v, x := fun i j => u i j * BOHR_RADIUS, y := fun _ _ => value,
      z := fun i j => v i j * BOHR_RADIUS, u_label := "X", v_label := "Z",
      plane_label := plane ++ "= a0" }
  else
    { u := u, v := v, x := fun i j => u i j * BOHR_RADIUS, y := fun i j => v i j * BOHR_RADIUS,
      z := fun _ _ => value, u_label := "X", v_label := "Y",
      plane_label := plane ++ "= a0" }

/-- `build_plane_grid` from `slicing.py`. The source performs no domain
validation of its own; the only possible failure is numpy's
`np.linspace(..., num)` rejecting a negative sample count. -/
noncomputable def build_plane_grid (plane : String) (value_a0 extent_a0 : ℝ) (points : ℤ) :
    Except String SliceGrid :=
  if points < 0 then Except.error ("Number of samples must be non-negative")
  else Except.ok (buildGridCore plane value_a0 extent_a0 points)

/-- `np.clip(v, lo, hi) = np.minimum(hi, np.maximum(v, lo))`. -/
noncomputable def clip (v lo hi : ℝ) : ℝ := min hi (max v lo)

/-- The safe denominator `np.where(r == 0.0, 1.0, r)` of
`cartesian_to_spherical`. -/
noncomputable def safe_radius (r : ℝ) : ℝ := if r = 0 then 1 else r

/-- `np.arctan2 y x` (mathematical atan2, range `(−π, π]`, `arctan2 0 0 = 0`). -/
noncomputable def arctan2 (y x : ℝ) : ℝ :=
  if 0 < x then Real.arctan (y / x)
  else if x < 0 then
    (if 0 ≤ y then Real.arctan (y / x) + Real.pi else Real.arctan (y / x) - Real.pi)
  else (if 0 < y then Real.pi / 2 else if y < 0 then -(Real.pi / 2) else 0)

/-- `cartesian_to_spherical` from `slicing.py`, elementwise. -/
noncomputable def cartesian_to_spherical (x y z : ℝ) : ℝ × ℝ × ℝ :=
  let r := Real.sqrt (x ^ 2 + y ^ 2 + z ^ 2)
  let theta := if r = 0 then 0 else Real.arccos (clip (z / safe_radius r) (-1) 1)
  let phi := arctan2 y x
  (r, theta, phi)

/-! ## Claim C1 (`resolve_scale`) -/

/-- C1 counterexample: the claim says `resolve_scale("radial_distribution",
"auto")` is `"log"`, but the code returns `"log"` only for mode `"density"`;
for `"radial_distribution"` it returns `"symlog"`, which is not `"log"`. -/
theorem resolve_scale_radial_distribution_counterexample :
    resolve_scale "radial_distribution" "auto" = "symlog" ∧
      resolve_scale "radial_distribution" "auto" ≠ "log" := by
  constructor
  · rfl
  · decide

/-- C1 (amended): for every mode string, `resolve_scale(mode, "auto")` returns
`"log"` exactly when `mode = "density"` and `"symlog"` for every other mode
(including `"radial_distribution"`); for every requested value other than
`"auto"`, `resolve_scale(mode, requested)` returns `requested` unchanged. -/
theorem resolve_scale_spec :
    (∀ mode : String,
      resolve_scale mode "auto" = if mode = "density" then "log" else "symlog") ∧
    (∀ mode scale : String, scale ≠ "auto" → resolve_scale mode scale = scale) := by
  constructor
  · intro mode
    rfl
  · intro mode scale h
    unfold resolve_scale
    rw [if_neg h]

/-- C1 witness: the pass-through branch of `resolve_scale_spec` at a concrete
input. -/
theorem resolve_scale_spec_witness :
    ("linear" : String) ≠ "auto" ∧ resolve_scale "real" "linear" = "linear" :=
  ⟨by decide, resolve_scale_spec.2 "real" "linear" (by decide)⟩

/-! ## Claim C5 (`parse_quantum_numbers`) -/

/-- C5: `parse_quantum_numbers(values)` fails exactly when the length of
`values` is not in `[1, 3]` or, after padding missing trailing values with
`0` to form `(n, l, m)`, when `n < 1`, `l < 0`, `l > n − 1`, or `|m| > l`;
otherwise it returns the triple with the padded defaults, so `[2]` yields
`(2, 0, 0)` and `[3, 1]` yields `(3, 1, 0)`, and `[2, 1, 2]` fails. The
embedding is a pure function, matching the no-side-effects clause. -/
theorem parse_quantum_numbers_spec :
    (∀ values : List ℤ,
      ((parse_quantum_numbers values).isOk = true ↔
        (1 ≤ values.length ∧ values.length ≤ 3 ∧
          1 ≤ (paddedValues values).getD 0 0 ∧ 0 ≤ (paddedValues values).getD 1 0 ∧
          (paddedValues values).getD 1 0 ≤ (paddedValues values).getD 0 0 - 1 ∧
          |(paddedValues values).getD 2 0| ≤ (paddedValues values).getD 1 0)) ∧
      ((parse_quantum_numbers values).isOk = true →
        parse_quantum_numbers values =
          Except.ok { n := (paddedValues values).getD 0 0, l := (paddedValues values).getD 1 0,
                      m := (paddedValues values).getD 2 0 })) ∧
    parse_quantum_numbers [2] = Except.ok { n := 2, l := 0, m := 0 } ∧
    parse_quantum_numbers [3, 1] = Except.ok { n := 3, l := 1, m := 0 } ∧
    (parse_quantum_numbers [2, 1, 2]).isOk = false := by
  refine ⟨fun values => ?_, rfl, rfl, rfl⟩
  by_cases h1 : 1 ≤ values.length ∧ values.length ≤ 3
  · unfold parse_quantum_numbers
    rw [if_neg (not_not_intro h1)]
    split_ifs with h2 h3 h4 h5
    · refine ⟨⟨fun h => absurd h (by simp [Except.isOk, Except.toBool]), fun h => ?_⟩,
        fun h => absurd h (by simp [Except.isOk, Except.toBool])⟩
      omega
    · refine ⟨⟨fun h => absurd h (by simp [Except.isOk, Except.toBool]), fun h => ?_⟩,
        fun h => absurd h (by simp [Except.isOk, Except.toBool])⟩
      omega
    · refine ⟨⟨fun h => absurd h (by simp [Except.isOk, Except.toBool]), fun h => ?_⟩,
        fun h => absurd h (by simp [Except.isOk, Except.toBool])⟩
      omega
    · refine ⟨⟨fun h => absurd h (by simp [Except.isOk, Except.toBool]), fun h => ?_⟩,
        fun h => absurd h (by simp [Except.isOk, Except.toBool])⟩
      exact absurd h.2.2.2.2.2 (not_le.mpr h5)
    · refine ⟨⟨fun _ => ?_, fun _ => rfl⟩, fun _ => rfl⟩
      exact ⟨h1.1, h1.2, by omega, by omega, by omega, not_lt.mp h5⟩
  · unfold parse_quantum_numbers
    rw [if_pos h1]
    refine ⟨⟨fun h => absurd h (by simp [Except.isOk, Except.toBool]), fun h => ?_⟩,
      fun h => absurd h (by simp [Except.isOk, Except.toBool])⟩
    exact absurd ⟨h.1, h.2.1⟩ h1

/-- C5 witness: the ok-value clause of `parse_quantum_numbers_spec` at `[2]`. -/
theorem parse_quantum_numbers_spec_witness :
    (parse_quantum_numbers [2]).isOk = true ∧
      parse_quantum_numbers [2] =
        Except.ok { n := (paddedValues [2]).getD 0 0, l := (paddedValues [2]).getD 1 0,
                    m := (paddedValues [2]).getD 2 0 } :=
  ⟨by decide, (parse_quantum_numbers_spec.1 [2]).2 (by decide)⟩

/-! ## Claim C6 (`evaluate_mode`) -/

/-- C6: for every complex array `psi`, `evaluate_mode` returns `|psi|²`
(elementwise real, nonnegative) for `"density"`, `Re(psi)` for `"real"`,
`Im(psi)` for `"imag"`, the `(Re, Im)` pair for `"real_imag"`, each result
sharing `psi`'s shape (length), and fails with the unsupported-mode error
for every other mode string. -/
theorem evaluate_mode_spec (psi : List ℂ) :
    (evaluate_mode psi "density" =
        Except.ok (ModeData.single (psi.map (fun z => Complex.abs z ^ 2))) ∧
      (∀ x ∈ psi.map (fun z => Complex.abs z ^ 2), 0 ≤ x) ∧
      (psi.map (fun z => Complex.abs z ^ 2)).length = psi.length) ∧
    (evaluate_mode psi "real" = Except.ok (ModeData.single (psi.map Complex.re)) ∧
      (psi.map Complex.re).length = psi.length) ∧
    (evaluate_mode psi "imag" = Except.ok (ModeData.single (psi.map Complex.im)) ∧
      (psi.map Complex.im).length = psi.length) ∧
    (evaluate_mode psi "real_imag" =
        Except.ok (ModeData.pair (psi.map Complex.re) (psi.map Complex.im)) ∧
      (psi.map Complex.re).length = psi.length ∧
      (psi.map Complex.im).length = psi.length) ∧
    (∀ mode : String, mode ∉ (["density", "real", "imag", "real_imag"] : List String) →
      evaluate_mode psi mode = Except.error ("Unsupported render mode: " ++ mode)) := by
  refine ⟨⟨rfl, ?_, List.length_map _ _⟩, ⟨rfl, List.length_map _ _⟩,
    ⟨rfl, List.length_map _ _⟩, ⟨rfl, List.length_map _ _, List.length_map _ _⟩, ?_⟩
  · intro x hx
    rcases List.mem_map.mp hx with ⟨z, _, rfl⟩
    exact sq_nonneg (Complex.abs z)
  · intro mode hmode
    simp only [List.mem_cons, List.not_mem_nil, or_false, not_or] at hmode
    obtain ⟨hd, hr, hi, hri⟩ := hmode
    unfold evaluate_mode
    rw [if_neg hd, if_neg hr, if_neg hi, if_neg hri]

/-- C6 witness: the unsupported-mode clause of `evaluate_mode_spec` at a
concrete array and the mode `"bogus"`. -/
theorem evaluate_mode_spec_witness :
    ("bogus" : String) ∉ (["density", "real", "imag", "real_imag"] : List String) ∧
      evaluate_mode [Complex.I] "bogus" =
        Except.error ("Unsupported render mode: " ++ "bogus") :=
  ⟨by decide, (evaluate_mode_spec [Complex.I]).2.2.2.2 "bogus" (by decide)⟩

/-! ## Claim C7 (`cartesian_to_spherical`) -/

/-- C7: `cartesian_to_spherical` is a total function of the real coordinates:
the only division it performs uses the substituted denominator
`safe_radius r`, which is never zero (so no division by zero and, in the
real-number model, no NaN can arise), and at the origin it returns
`(r, θ, φ) = (0, 0, 0)`. -/
theorem cartesian_to_spherical_total :
    (∀ r : ℝ, safe_radius r ≠ 0) ∧ cartesian_to_spherical 0 0 0 = (0, 0, 0) := by
  constructor
  · intro r
    unfold safe_radius
    split_ifs with h
    · exact one_ne_zero
    · exact h
  · unfold cartesian_to_spherical arctan2
    have h0 : Real.sqrt ((0 : ℝ) ^ 2 + 0 ^ 2 + 0 ^ 2) = 0 := by
      norm_num
    simp [h0]

/-- C7 witness: the nonzero-denominator clause at the most delicate input,
`r = 0`. -/
theorem cartesian_to_spherical_total_witness : safe_radius 0 ≠ 0 :=
  cartesian_to_spherical_total.1 0

/-! ## `analytic.py` -/

/-- The Legendre polynomial `P_l`, via the closed form
`P_l(x) = 2^(-l) * SUM over k of (choose l k)^2 * (x-1)^(l-k) * (x+1)^k`.
Base of the model of scipy's `lpmv`. -/
noncomputable def legendrePoly (l : ℕ) : Polynomial ℝ :=
  Polynomial.C ((1 : ℝ) / 2 ^ l) *
    ∑ k ∈ Finset.range (l + 1),
      Polynomial.C ((Nat.choose l k : ℝ) ^ 2) *
        (Polynomial.X - 1) ^ (l - k) * (Polynomial.X + 1) ^ k

/-- Model of scipy's `lpmv(m, l, x)` for integer order and degree: the
associated Legendre function
`P_l^m(x) = (-1)^m * (1 - x^2)^(m/2) * (d/dx)^m P_l(x)`,
including the Condon-Shortley phase, exactly as the source's comment states. -/
noncomputable def lpmv (m l : ℕ) (x : ℝ) : ℝ :=
  (-1 : ℝ) ^ m * Real.sqrt (1 - x ^ 2) ^ m *
    (Polynomial.derivative^[m] (legendrePoly l)).eval x

/-- Model of scipy's `eval_genlaguerre`: the pair `(L_k, L_(k+1))` of
generalized Laguerre values, by the standard three-term recurrence
`(k+2) L_(k+2) = (2(k+1)+1+alpha-x) L_(k+1) - ((k+1)+alpha) L_k`. -/
noncomputable def genlaguerreAux (alpha x : ℝ) : ℕ → ℝ × ℝ
  | 0 => (1, 1 + alpha - x)
  | k + 1 =>
    let p := genlaguerreAux alpha x k
    (p.2, ((2 * ((k : ℝ) + 1) + 1 + alpha - x) * p.2 - (((k : ℝ) + 1) + alpha) * p.1) /
      ((k : ℝ) + 2))

/-- `eval_genlaguerre(k, alpha, x)`: the generalized Laguerre polynomial value
`L_k^alpha(x)`. -/
noncomputable def eval_genlaguerre (k : ℕ) (alpha x : ℝ) : ℝ :=
  (genlaguerreAux alpha x k).1

/-- The elementwise body of `radial_wavefunction` (the value computed for one
entry of the input array `r`, in meters). `** 1.5` is real exponentiation,
`np.power(rho, l)` is an integer power of `rho`, and the Python
`math.factorial` calls appear through `Int.toNat` (they are only reached
when their arguments are nonnegative, see `radial_wavefunction`). -/
noncomputable def radialElem (n l : ℤ) (ri : ℝ) : ℝ :=
  (2 / ((n : ℝ) * BOHR_RADIUS)) ^ (1.5 : ℝ) *
    Real.sqrt (((n - l - 1).toNat.factorial : ℝ) /
      (2 * (n : ℝ) * ((n + l).toNat.factorial : ℝ))) *
    Real.exp (-(2 * ri / ((n : ℝ) * BOHR_RADIUS)) / 2) *
    (2 * ri / ((n : ℝ) * BOHR_RADIUS)) ^ l *
    eval_genlaguerre (n - l - 1).toNat (2 * (l : ℝ) + 1) (2 * ri / ((n : ℝ) * BOHR_RADIUS))

/-- `radial_wavefunction` from `analytic.py`. The function performs no
quantum-number validation; the only error paths are the Python runtime ones,
in source order: the scalar `2.0 / (n * BOHR_RADIUS)` divides by zero when
`n = 0`, and `math.factorial` rejects a negative argument. -/
noncomputable def radial_wavefunction (n l : ℤ) (r : List ℝ) : Except String (List ℝ) :=
  if n = 0 then Except.error ("float division by zero")
  else if n - l - 1 < 0 ∨ n + l < 0 then
    Except.error ("factorial() not defined for negative values")
  else Except.ok (r.map (radialElem n l))

/-- The normalization constant of `spherical_harmonic` (only reached when
`l - |m| ≥ 0`, hence `l ≥ 0`). -/
noncomputable def sphNormalization (l m_abs : ℤ) : ℝ :=
  Real.sqrt (((2 * (l : ℝ) + 1) / (4 * Real.pi)) *
    (((l - m_abs).toNat.factorial : ℝ) / ((l + m_abs).toNat.factorial : ℝ)))

/-- The `y_positive` local of `spherical_harmonic`:
`normalization * p_lm * np.exp(1j * m_abs * phi)`, elementwise. -/
noncomputable def sphericalHarmonicPos (l m_abs : ℤ) (t p : ℝ) : ℂ :=
  ((sphNormalization l m_abs * lpmv m_abs.toNat l.toNat (Real.cos t) : ℝ) : ℂ) *
    Complex.exp (Complex.I * (m_abs : ℂ) * (p : ℂ))

/-- The elementwise body of `spherical_harmonic`: `y_positive` for `m ≥ 0`,
`((-1) ** m_abs) * np.conjugate(y_positive)` for `m < 0`. -/
noncomputable def sphericalHarmonicElem (l m : ℤ) (t p : ℝ) : ℂ :=
  if 0 ≤ m then sphericalHarmonicPos l |m| t p
  else ((-1 : ℂ) ^ (|m|).toNat) * (starRingEnd ℂ) (sphericalHarmonicPos l |m| t p)

/-- `spherical_harmonic` from `analytic.py`. No quantum-number validation is
performed; the only error path is `math.factorial(l - m_abs)` rejecting a
negative argument (when `|m| > l`), which is also the first raise the Python
code reaches. -/
noncomputable def spherical_harmonic (l m : ℤ) (theta phi : List ℝ) :
    Except String (List ℂ) :=
  if l - |m| < 0 then Except.error ("factorial() not defined for negative values")
  else Except.ok (List.zipWith (sphericalHarmonicElem l m) theta phi)

/-- `hydrogen_wavefunction` from `analytic.py`: the elementwise product
`radial * angular` (real times complex). -/
noncomputable def hydrogen_wavefunction (n l m : ℤ) (r theta phi : List ℝ) :
    Except String (List ℂ) :=
  (radial_wavefunction n l r).bind (fun radial =>
    (spherical_harmonic l m theta phi).bind (fun angular =>
      Except.ok (List.zipWith (fun a b => ((a : ℝ) : ℂ) * b) radial angular)))

/-! ### Success lemmas for valid quantum numbers -/

theorem radial_wavefunction_eq_ok (n l : ℤ) (r : List ℝ)
    (h1 : 1 ≤ n) (h2 : 0 ≤ l) (h3 : l ≤ n - 1) :
    radial_wavefunction n l r = Except.ok (r.map (radialElem n l)) := by
  unfold radial_wavefunction
  rw [if_neg (by omega), if_neg (by omega)]

theorem spherical_harmonic_eq_ok (l m : ℤ) (theta phi : List ℝ) (h : |m| ≤ l) :
    spherical_harmonic l m theta phi =
      Except.ok (List.zipWith (sphericalHarmonicElem l m) theta phi) := by
  unfold spherical_harmonic
  rw [if_neg (by omega)]

theorem hydrogen_wavefunction_eq_ok (n l m : ℤ) (r theta phi : List ℝ)
    (h : validQN n l m) :
    hydrogen_wavefunction n l m r theta phi =
      Except.ok (List.zipWith (fun a b => ((a : ℝ) : ℂ) * b) (r.map (radialElem n l))
        (List.zipWith (sphericalHarmonicElem l m) theta phi)) := by
  obtain ⟨h1, h2, h3, h4⟩ := h
  unfold hydrogen_wavefunction
  rw [radial_wavefunction_eq_ok n l r h1 h2 h3, spherical_harmonic_eq_ok l m theta phi h4]
  rfl

/-! ## Claim C3 (validation behaviour of the analytic layer) -/

/-- C3 counterexample: `(n, l, m) = (1, 0, 1)` violates the quantum-number
invariants (`|m| > l`), yet `radial_wavefunction(1, 0, r)` succeeds — the
analytic functions perform no defense-in-depth validation (and
`radial_wavefunction` never even sees `m`). -/
theorem analytic_no_validation_counterexample :
    ¬ validQN 1 0 1 ∧ (radial_wavefunction 1 0 [0]).isOk = true :=
  ⟨by decide, rfl⟩

/-- C3 (amended): the analytic evaluation functions perform no quantum-number
validation of their own (an invalid triple need not fail: validation happens
only at parse time); what does hold is the success half of the claim — for
every valid `(n, l, m)`, `radial_wavefunction`, `spherical_harmonic` and
`hydrogen_wavefunction` all succeed, with no error path. -/
theorem analytic_valid_no_error (n l m : ℤ) (r theta phi : List ℝ)
    (h : validQN n l m) :
    (radial_wavefunction n l r).isOk = true ∧
    (spherical_harmonic l m theta phi).isOk = true ∧
    (hydrogen_wavefunction n l m r theta phi).isOk = true := by
  obtain ⟨h1, h2, h3, h4⟩ := h
  rw [radial_wavefunction_eq_ok n l r h1 h2 h3, spherical_harmonic_eq_ok l m theta phi h4,
    hydrogen_wavefunction_eq_ok n l m r theta phi ⟨h1, h2, h3, h4⟩]
  exact ⟨rfl, rfl, rfl⟩

/-- C3 witness: `analytic_valid_no_error` at the ground state `(1, 0, 0)`. -/
theorem analytic_valid_no_error_witness :
    validQN 1 0 0 ∧
      ((radial_wavefunction 1 0 [0]).isOk = true ∧
        (spherical_harmonic 0 0 [0] [0]).isOk = true ∧
        (hydrogen_wavefunction 1 0 0 [0] [0] [0]).isOk = true) :=
  ⟨by decide, analytic_valid_no_error 1 0 0 [0] [0] [0] (by decide)⟩

/-! ### Conjugation structure of the spherical harmonic -/

theorem sphericalHarmonicPos_zero_eq (l : ℤ) (t p : ℝ) :
    sphericalHarmonicPos l 0 t p =
      ((sphNormalization l 0 * lpmv 0 l.toNat (Real.cos t) : ℝ) : ℂ) := by
  unfold sphericalHarmonicPos
  norm_num [Complex.exp_zero]

theorem sphericalHarmonicElem_neg (l m : ℤ) (t p : ℝ) :
    sphericalHarmonicElem l (-m) t p =
      (-1 : ℂ) ^ (|m|).toNat * (starRingEnd ℂ) (sphericalHarmonicElem l m t p) := by
  unfold sphericalHarmonicElem
  rw [abs_neg]
  split_ifs with ha hb hb
  · have hm0 : m = 0 := by omega
    subst hm0
    rw [abs_zero, sphericalHarmonicPos_zero_eq]
    simp [Complex.conj_ofReal]
  · -- m < 0: the claim unfolds to `y_pos = c * conj (c * conj y_pos)`
    rw [map_mul, map_pow, map_neg, map_one, Complex.conj_conj, ← mul_assoc,
      ← pow_add, Even.neg_one_pow ⟨(|m|).toNat, rfl⟩, one_mul]
  · rfl
  · omega

theorem sphericalHarmonicElem_zero_im (l : ℤ) (t p : ℝ) :
    (sphericalHarmonicElem l 0 t p).im = 0 := by
  unfold sphericalHarmonicElem
  rw [if_pos le_rfl, abs_zero, sphericalHarmonicPos_zero_eq]
  exact Complex.ofReal_im _

/-- Decomposition of membership in a `zipWith`. -/
theorem mem_zipWith_decomp {α β γ : Type} {f : α → β → γ} {c : γ} :
    ∀ {as : List α} {bs : List β}, c ∈ List.zipWith f as bs →
      ∃ a b, a ∈ as ∧ b ∈ bs ∧ c = f a b := by
  intro as
  induction as with
  | nil => intro bs h; simp at h
  | cons a as ih =>
    intro bs h
    cases bs with
    | nil => simp at h
    | cons b bs =>
      rcases List.mem_cons.mp h with h | h
      · exact ⟨a, b, List.mem_cons_self a as, List.mem_cons_self b bs, h⟩
      · obtain ⟨a2, b2, ha, hb, rfl⟩ := ih h
        exact ⟨a2, b2, List.mem_cons_of_mem a ha, List.mem_cons_of_mem b hb, rfl⟩

/-- Pulling the constant `c * conj ·` out of the elementwise
`radial * angular` product. -/
theorem zipWith_mul_conj (c : ℂ) (e : ℝ → ℝ → ℂ) :
    ∀ (rs : List ℝ) (theta phi : List ℝ),
      List.zipWith (fun a b => ((a : ℝ) : ℂ) * b) rs
          (List.zipWith (fun t p => c * (starRingEnd ℂ) (e t p)) theta phi) =
        List.map (fun z => c * (starRingEnd ℂ) z)
          (List.zipWith (fun a b => ((a : ℝ) : ℂ) * b) rs (List.zipWith e theta phi)) := by
  intro rs
  induction rs with
  | nil => intro theta phi; simp
  | cons a rs ih =>
    intro theta phi
    cases theta with
    | nil => simp
    | cons t theta =>
      cases phi with
      | nil => simp
      | cons p phi =>
        simp only [List.zipWith_cons_cons, List.map_cons, ih]
        refine congrArg (fun w => w :: _) ?_
        rw [map_mul, Complex.conj_ofReal]
        ring

/-! ## Claim C4 (conjugation symmetry of `hydrogen_wavefunction`) -/

/-- C4: for every valid `(n, l, m)` and all input arrays,
`hydrogen_wavefunction(n, l, -m, r, θ, φ)` equals `(-1)^{|m|}` times the
elementwise complex conjugate of `hydrogen_wavefunction(n, l, m, r, θ, φ)`;
in particular for `m = 0` the result has zero imaginary part everywhere. -/
theorem hydrogen_wavefunction_conjugation (n l m : ℤ) (r theta phi : List ℝ)
    (h : validQN n l m) :
    hydrogen_wavefunction n l (-m) r theta phi =
      Except.map (List.map (fun z => (-1 : ℂ) ^ (|m|).toNat * (starRingEnd ℂ) z))
        (hydrogen_wavefunction n l m r theta phi) ∧
    (m = 0 → ∀ xs, hydrogen_wavefunction n l m r theta phi = Except.ok xs →
      ∀ z ∈ xs, z.im = 0) := by
  obtain ⟨h1, h2, h3, h4⟩ := h
  have hok := hydrogen_wavefunction_eq_ok n l m r theta phi ⟨h1, h2, h3, h4⟩
  have hok2 := hydrogen_wavefunction_eq_ok n l (-m) r theta phi
    ⟨h1, h2, h3, by rwa [abs_neg]⟩
  constructor
  · rw [hok, hok2, except_map_ok]
    have helem : sphericalHarmonicElem l (-m) =
        fun t p => (-1 : ℂ) ^ (|m|).toNat *
          (starRingEnd ℂ) (sphericalHarmonicElem l m t p) :=
      funext fun t => funext fun p => sphericalHarmonicElem_neg l m t p
    rw [helem, zipWith_mul_conj]
  · intro hm0 xs hxs z hz
    subst hm0
    rw [hok] at hxs
    obtain rfl : xs = _ := (Except.ok.injEq _ _).mp hxs.symm
    obtain ⟨a, b, _, hb, rfl⟩ := mem_zipWith_decomp hz
    obtain ⟨t, p, _, _, rfl⟩ := mem_zipWith_decomp hb
    rw [Complex.mul_im, Complex.ofReal_re, Complex.ofReal_im,
      sphericalHarmonicElem_zero_im]
    ring

/-- C4 witness: `hydrogen_wavefunction_conjugation` at the ground state
`(1, 0, 0)` on singleton arrays. -/
theorem hydrogen_wavefunction_conjugation_witness :
    validQN 1 0 0 ∧
      (hydrogen_wavefunction 1 0 (-0) [0] [0] [0] =
        Except.map (List.map (fun z => (-1 : ℂ) ^ (|(0 : ℤ)|).toNat * (starRingEnd ℂ) z))
          (hydrogen_wavefunction 1 0 0 [0] [0] [0]) ∧
      ((0 : ℤ) = 0 → ∀ xs, hydrogen_wavefunction 1 0 0 [0] [0] [0] = Except.ok xs →
        ∀ z ∈ xs, z.im = 0)) :=
  ⟨by decide, hydrogen_wavefunction_conjugation 1 0 0 [0] [0] [0] (by decide)⟩

/-! ## Claim C2 (`build_plane_grid`) -/

/-- C2 counterexample: with `extent_a0 = -1 ≤ 0` and `points = 1 < 2`,
`build_plane_grid` succeeds — the source performs no domain validation, so
the claimed domain error does not exist. -/
theorem build_plane_grid_no_validation_counterexample :
    (build_plane_grid "x" 0 (-1) 1).isOk = true := rfl

/-- C2 (amended): `build_plane_grid` performs no domain validation of
`extent_a0` or `points` (the only failure is numpy's rejection of a negative
sample count). For every plane name and every nonnegative `points` it
returns a `SliceGrid` whose fixed axis is constant at
`value_a0 * BOHR_RADIUS` and whose two free axes carry the uniform
`np.linspace(-extent_a0, extent_a0, points)` lattice (times `BOHR_RADIUS`),
with `u[i][j]` the column coordinate and `v[i][j]` the row coordinate;
any plane string other than `"x"` and `"y"` is treated as `"z"`. -/
theorem build_plane_grid_spec (plane : String) (value_a0 extent_a0 : ℝ) (points : ℤ)
    (hp : 0 ≤ points) :
    ∃ g, build_plane_grid plane value_a0 extent_a0 points = Except.ok g ∧
      (plane = "x" →
        (∀ i j, g.x i j = value_a0 * BOHR_RADIUS) ∧
        (∀ i j, g.y i j =
          (-extent_a0 + j * (2 * extent_a0 / ((points : ℝ) - 1))) * BOHR_RADIUS) ∧
        (∀ i j, g.z i j =
          (-extent_a0 + i * (2 * extent_a0 / ((points : ℝ) - 1))) * BOHR_RADIUS)) ∧
      (plane = "y" →
        (∀ i j, g.x i j =
          (-extent_a0 + j * (2 * extent_a0 / ((points : ℝ) - 1))) * BOHR_RADIUS) ∧
        (∀ i j, g.y i j = value_a0 * BOHR_RADIUS) ∧
        (∀ i j, g.z i j =
          (-extent_a0 + i * (2 * extent_a0 / ((points : ℝ) - 1))) * BOHR_RADIUS)) ∧
      (plane ≠ "x" → plane ≠ "y" →
        (∀ i j, g.x i j =
          (-extent_a0 + j * (2 * extent_a0 / ((points : ℝ) - 1))) * BOHR_RADIUS) ∧
        (∀ i j, g.y i j =
          (-extent_a0 + i * (2 * extent_a0 / ((points : ℝ) - 1))) * BOHR_RADIUS) ∧
        (∀ i j, g.z i j = value_a0 * BOHR_RADIUS)) := by
  refine ⟨buildGridCore plane value_a0 extent_a0 points, ?_, ?_, ?_, ?_⟩
  · unfold build_plane_grid
    rw [if_neg (by omega)]
  · intro hx
    subst hx
    unfold buildGridCore
    rw [if_pos rfl]
    refine ⟨fun i j => rfl, fun i j => ?_, fun i j => ?_⟩ <;>
      · show linspace (-extent_a0) extent_a0 points _ * BOHR_RADIUS = _
        unfold linspace
        ring_nf
  · intro hy
    subst hy
    unfold buildGridCore
    rw [if_neg (by decide), if_pos rfl]
    refine ⟨fun i j => ?_, fun i j => rfl, fun i j => ?_⟩ <;>
      · show linspace (-extent_a0) extent_a0 points _ * BOHR_RADIUS = _
        unfold linspace
        ring_nf
  · intro hx hy
    unfold buildGridCore
    rw [if_neg hx, if_neg hy]
    refine ⟨fun i j => ?_, fun i j => ?_, fun i j => rfl⟩ <;>
      · show linspace (-extent_a0) extent_a0 points _ * BOHR_RADIUS = _
        unfold linspace
        ring_nf

/-- C2 witness: `build_plane_grid_spec` at the plane `"z"` with a 2-point
grid of half-range 1. -/
theorem build_plane_grid_spec_witness :
    (0 : ℤ) ≤ 2 ∧
      ∃ g, build_plane_grid "z" 0 1 2 = Except.ok g ∧
        ("z" = "x" →
          (∀ i j, g.x i j = 0 * BOHR_RADIUS) ∧
          (∀ i j, g.y i j = (-1 + j * (2 * 1 / (((2 : ℤ) : ℝ) - 1))) * BOHR_RADIUS) ∧
          (∀ i j, g.z i j = (-1 + i * (2 * 1 / (((2 : ℤ) : ℝ) - 1))) * BOHR_RADIUS)) ∧
        ("z" = "y" →
          (∀ i j, g.x i j = (-1 + j * (2 * 1 / (((2 : ℤ) : ℝ) - 1))) * BOHR_RADIUS) ∧
          (∀ i j, g.y i j = 0 * BOHR_RADIUS) ∧
          (∀ i j, g.z i j = (-1 + i * (2 * 1 / (((2 : ℤ) : ℝ) - 1))) * BOHR_RADIUS)) ∧
        (("z" : String) ≠ "x" → ("z" : String) ≠ "y" →
          (∀ i j, g.x i j = (-1 + j * (2 * 1 / (((2 : ℤ) : ℝ) - 1))) * BOHR_RADIUS) ∧
          (∀ i j, g.y i j = (-1 + i * (2 * 1 / (((2 : ℤ) : ℝ) - 1))) * BOHR_RADIUS) ∧
          (∀ i j, g.z i j = 0 * BOHR_RADIUS)) :=
  ⟨by decide, build_plane_grid_spec "z" 0 1 2 (by decide)⟩

/-! ## `auto_settings.py` -/

/-- `np.nanmax` of a list (no NaN exists in the real-number model, so this is
the maximum; `0` for the empty list, which never occurs in the source). -/
noncomputable def nanmax (xs : List ℝ) : ℝ := xs.foldl max (xs.headD 0)

/-- `np.cumsum` (running sums), with an accumulator. -/
def cumsumFrom (acc : ℝ) : List ℝ → List ℝ
  | [] => []
  | x :: xs => (acc + x) :: cumsumFrom (acc + x) xs

/-- `np.cumsum`. -/
def cumsum (xs : List ℝ) : List ℝ := cumsumFrom 0 xs

/-- `np.searchsorted(xs, v)` (side `"left"`) on a sorted list: the index of
the first element `≥ v`, or the length when there is none. -/
noncomputable def searchsorted (xs : List ℝ) (v : ℝ) : ℕ :=
  xs.findIdx (fun x => decide (v ≤ x))

/-- Arithmetic mean of a list (`np.mean`; `0` for the empty list by the
`x / 0 = 0` convention). -/
noncomputable def listMean (xs : List ℝ) : ℝ := xs.sum / xs.length

/-- `np.nanstd`: population standard deviation. -/
noncomputable def nanstd (xs : List ℝ) : ℝ :=
  Real.sqrt (listMean (xs.map (fun x => (x - listMean xs) ^ 2)))

/-- Insertion into a sorted list (ascending), for the sort that
`np.percentile` performs internally. -/
noncomputable def insertOrdered (x : ℝ) : List ℝ → List ℝ
  | [] => [x]
  | y :: ys => if x ≤ y then x :: y :: ys else y :: insertOrdered x ys

/-- Ascending insertion sort (model of the sort inside `np.percentile`). -/
noncomputable def sortAscending : List ℝ → List ℝ
  | [] => []
  | x :: xs => insertOrdered x (sortAscending xs)

/-- `np.percentile(xs, q)` with the default linear interpolation: virtual
index `h = (q/100) * (len - 1)` into the sorted data, interpolating between
`floor h` and `ceil h`. -/
noncomputable def percentile (xs : List ℝ) (q : ℝ) : ℝ :=
  let sorted := sortAscending xs
  let h := q / 100 * ((xs.length : ℝ) - 1)
  let lo := sorted.getD (⌊h⌋).toNat 0
  let hi := sorted.getD (⌈h⌉).toNat 0
  lo + (h - (⌊h⌋ : ℝ)) * (hi - lo)

/-- `auto_extent_a0` from `auto_settings.py`. The body is `Except`-valued
only because it calls `radial_wavefunction`; everything else is the source's
arithmetic, branch for branch. The `r` sample list is
`np.linspace(0.0, 12 n² a0, 12000)`, `significant`/`node_candidates` are the
`np.where(...)` index lists, and the final line is
`np.clip(raw_extent, 4.0, max_extent)`. -/
noncomputable def auto_extent_a0 (n l : ℤ) (mode : String) (coverage : ℝ) :
    Except String ℝ :=
  let cov := clip coverage 0.95 0.999
  let r := (List.range 12000).map (linspace 0 (12 * ((n : ℝ)) ^ 2 * BOHR_RADIUS) 12000)
  Except.map (fun radial =>
    let raw_extent :=
      if mode = "density" ∨ mode = "radial_distribution" then
        let density := List.zipWith (fun ri Ri => ri ^ 2 * |Ri| ^ 2) r radial
        let dr := r.getD 1 0 - r.getD 0 0
        let cumulative :=
          (0 : ℝ) :: cumsum (List.zipWith (fun a b => (a + b) * 0.5 * dr) density
            (density.drop 1))
        let total := if 0 < cumulative.getLastD 0 then cumulative.getLastD 0 else 1
        let normalized := cumulative.map (fun c => c / total)
        let idx := min (max (searchsorted normalized cov) 1) (r.length - 1)
        1.15 * (r.getD idx 0 / BOHR_RADIUS)
      else
        let abs_radial := radial.map (fun x => |x|)
        let peak := nanmax abs_radial
        if peak ≤ 0 then 6
        else
          let cutoff := peak * 2e-3
          let significant := (List.range abs_radial.length).filter
            (fun i => decide (cutoff ≤ abs_radial.getD i 0))
          let support_radius :=
            if significant.isEmpty then 4 * BOHR_RADIUS
            else r.getD (significant.getLastD 0) 0
          let signs := radial.map Real.sign
          let node_candidates := (List.range (radial.length - 1)).filter
            (fun i => decide (signs.getD i 0 * signs.getD (i + 1) 0 < 0))
          if node_candidates.isEmpty then 1.25 * (support_radius / BOHR_RADIUS)
          else
            max (1.25 * support_radius)
              (1.8 * (r.getD (node_candidates.getLastD 0) 0)) / BOHR_RADIUS
    let max_extent :=
      if mode = "density" ∨ mode = "radial_distribution" then
        max 10 (8 * (n : ℝ))
      else max 10 ((6 + 2 * (l : ℝ)) * (n : ℝ))
    clip raw_extent 4 max_extent)
    (radial_wavefunction n l r)

/-! ## Claim C8 (`auto_extent_a0` stays in its clamp interval) -/

theorem clip_mem_interval (x lo hi : ℝ) (h : lo ≤ hi) :
    lo ≤ clip x lo hi ∧ clip x lo hi ≤ hi := by
  unfold clip
  exact ⟨le_min h (le_max_right x lo), min_le_left hi (max x lo)⟩

/-- C8: for every valid `(n, l)`, every mode string and every coverage,
`auto_extent_a0` succeeds and returns a value in the closed interval
`[4, M]`, with `M = max(10, 8n)` for the density-like modes and
`M = max(10, (6 + 2l) n)` otherwise; in particular the result is positive. -/
theorem auto_extent_a0_bounds (n l : ℤ) (mode : String) (coverage : ℝ)
    (h1 : 1 ≤ n) (h2 : 0 ≤ l) (h3 : l ≤ n - 1) :
    ∃ v : ℝ, auto_extent_a0 n l mode coverage = Except.ok v ∧
      4 ≤ v ∧
      v ≤ (if mode = "density" ∨ mode = "radial_distribution" then
            max 10 (8 * (n : ℝ)) else max 10 ((6 + 2 * (l : ℝ)) * (n : ℝ))) ∧
      0 < v := by
  simp only [auto_extent_a0, radial_wavefunction_eq_ok n l _ h1 h2 h3, except_map_ok]
  refine ⟨_, rfl, ?_⟩
  have hM : (4 : ℝ) ≤ (if mode = "density" ∨ mode = "radial_distribution" then
      max 10 (8 * (n : ℝ)) else max 10 ((6 + 2 * (l : ℝ)) * (n : ℝ))) := by
    split_ifs <;>
      · refine le_trans (by norm_num) (le_max_left _ _)
  obtain ⟨hlo, hhi⟩ := clip_mem_interval _ 4 _ hM
  refine ⟨hlo, hhi, by linarith⟩

/-- C8 witness: `auto_extent_a0_bounds` at `(n, l) = (1, 0)`, mode `"real"`,
coverage `0.99`. -/
theorem auto_extent_a0_bounds_witness :
    ((1 : ℤ) ≤ 1 ∧ (0 : ℤ) ≤ 0 ∧ (0 : ℤ) ≤ 1 - 1) ∧
      ∃ v : ℝ, auto_extent_a0 1 0 "real" 0.99 = Except.ok v ∧
        4 ≤ v ∧
        v ≤ (if ("real" : String) = "density" ∨ ("real" : String) = "radial_distribution"
              then max 10 (8 * ((1 : ℤ) : ℝ)) else max 10 ((6 + 2 * ((0 : ℤ) : ℝ)) * ((1 : ℤ) : ℝ))) ∧
        0 < v :=
  ⟨by decide, auto_extent_a0_bounds 1 0 "real" 0.99 (by decide) (by decide) (by decide)⟩

/-! ### `auto_plane_and_value` and its scoring pipeline -/

/-- Flattening of the three coordinate arrays of a grid into one list of
`(x, y, z)` sample points (row-major, indices below `points`). -/
noncomputable def gridPoints (g : SliceGrid) (points : ℕ) : List (ℝ × ℝ × ℝ) :=
  ((List.range points).map (fun i =>
    (List.range points).map (fun j => (g.x i j, g.y i j, g.z i j)))).flatten

/-- The comparable scalar field of the loop body of `auto_plane_and_value`:
for `real_imag` mode the two parts are combined with `np.hypot`, otherwise
the mode data is used as is. -/
noncomputable def fieldOf : ModeData → List ℝ
  | ModeData.single xs => xs
  | ModeData.pair re im => List.zipWith (fun a b => Real.sqrt (a ^ 2 + b ^ 2)) re im

/-- One iteration of the candidate loop of `auto_plane_and_value`: build the
central plane (`value_a0 = 0`, `points = 121`), convert to spherical
coordinates, evaluate `psi` and the mode data, and score the field with
`np.nanpercentile(|field|, 99.5) + np.nanstd(field)`. -/
noncomputable def planeScore (n l m : ℤ) (mode : String) (extent_a0 : ℝ) (plane : String) :
    Except String ℝ :=
  (build_plane_grid plane 0 extent_a0 121).bind (fun grid =>
    (hydrogen_wavefunction n l m
        ((gridPoints grid 121).map (fun q => (cartesian_to_spherical q.1 q.2.1 q.2.2).1))
        ((gridPoints grid 121).map (fun q => (cartesian_to_spherical q.1 q.2.1 q.2.2).2.1))
        ((gridPoints grid 121).map (fun q =>
          (cartesian_to_spherical q.1 q.2.1 q.2.2).2.2))).bind
      (fun psi =>
        Except.map (fun md =>
          percentile ((fieldOf md).map (fun x => |x|)) 99.5 + nanstd (fieldOf md))
          (evaluate_mode psi mode)))

/-- The candidate loop of `auto_plane_and_value`: running
`(best_plane, best_score)` state, updated only on strict `score > best_score`. -/
noncomputable def selectBest :
    List String → String → ℝ → (String → Except String ℝ) → Except String String
  | [], best, _, _ => Except.ok best
  | p :: rest, best, bestScore, score =>
    (score p).bind (fun s =>
      if bestScore < s then selectBest rest p s score
      else selectBest rest best bestScore score)

/-- `auto_plane_and_value` from `auto_settings.py`: loop over the candidates
`("z", "x", "y")` starting from `best_plane = "z"`, `best_score = -1.0`, and
return `(best_plane, 0.0)`. -/
noncomputable def auto_plane_and_value (n l m : ℤ) (mode : String) (extent_a0 : ℝ) :
    Except String (String × ℝ) :=
  Except.map (fun p => (p, (0 : ℝ)))
    (selectBest ["z", "x", "y"] "z" (-1) (planeScore n l m mode extent_a0))

/-! ### Nonnegativity of the plane score -/

theorem insertOrdered_mem (x a : ℝ) :
    ∀ ys : List ℝ, (a ∈ insertOrdered x ys ↔ a = x ∨ a ∈ ys) := by
  intro ys
  induction ys with
  | nil => simp [insertOrdered]
  | cons y ys ih =>
    unfold insertOrdered
    split_ifs with h
    · simp [List.mem_cons]
    · simp only [List.mem_cons, ih]
      tauto

theorem sortAscending_mem (a : ℝ) :
    ∀ xs : List ℝ, (a ∈ sortAscending xs ↔ a ∈ xs) := by
  intro xs
  induction xs with
  | nil => simp [sortAscending]
  | cons x xs ih =>
    unfold sortAscending
    rw [insertOrdered_mem, ih, List.mem_cons]

theorem getD_zero_nonneg :
    ∀ (xs : List ℝ), (∀ x ∈ xs, 0 ≤ x) → ∀ i : ℕ, 0 ≤ xs.getD i 0 := by
  intro xs
  induction xs with
  | nil => intro _ i; simp [List.getD]
  | cons x xs ih =>
    intro h i
    cases i with
    | zero => exact h x (List.mem_cons_self x xs)
    | succ i =>
      rw [List.getD_cons_succ]
      exact ih (fun y hy => h y (List.mem_cons_of_mem x hy)) i

theorem percentile_nonneg (xs : List ℝ) (q : ℝ) (h : ∀ x ∈ xs, 0 ≤ x) :
    0 ≤ percentile xs q := by
  have hsor : ∀ x ∈ sortAscending xs, 0 ≤ x :=
    fun x hx => h x ((sortAscending_mem x xs).mp hx)
  unfold percentile
  set hv := q / 100 * ((xs.length : ℝ) - 1) with hhv
  have hlo := getD_zero_nonneg (sortAscending xs) hsor (⌊hv⌋).toNat
  have hhi := getD_zero_nonneg (sortAscending xs) hsor (⌈hv⌉).toNat
  have ht0 : 0 ≤ hv - (⌊hv⌋ : ℝ) := sub_nonneg.mpr (Int.floor_le hv)
  have ht1 : hv - (⌊hv⌋ : ℝ) ≤ 1 := by
    have := Int.lt_floor_add_one hv
    linarith
  have hrw : (sortAscending xs).getD (⌊hv⌋).toNat 0 +
      (hv - (⌊hv⌋ : ℝ)) * ((sortAscending xs).getD (⌈hv⌉).toNat 0 -
        (sortAscending xs).getD (⌊hv⌋).toNat 0) =
      (1 - (hv - (⌊hv⌋ : ℝ))) * (sortAscending xs).getD (⌊hv⌋).toNat 0 +
        (hv - (⌊hv⌋ : ℝ)) * (sortAscending xs).getD (⌈hv⌉).toNat 0 := by
    ring
  rw [hrw]
  exact add_nonneg (mul_nonneg (by linarith) hlo) (mul_nonneg ht0 hhi)

theorem nanstd_nonneg (xs : List ℝ) : 0 ≤ nanstd xs := Real.sqrt_nonneg _

theorem evaluate_mode_ok_of_supported (psi : List ℂ) (mode : String)
    (hm : mode ∈ (["density", "real", "imag", "real_imag"] : List String)) :
    ∃ md, evaluate_mode psi mode = Except.ok md := by
  simp only [List.mem_cons, List.not_mem_nil, or_false] at hm
  rcases hm with rfl | rfl | rfl | rfl
  exacts [⟨_, rfl⟩, ⟨_, rfl⟩, ⟨_, rfl⟩, ⟨_, rfl⟩]

theorem evaluate_mode_unsupported (psi : List ℂ) (mode : String)
    (hmode : mode ∉ (["density", "real", "imag", "real_imag"] : List String)) :
    evaluate_mode psi mode = Except.error ("Unsupported render mode: " ++ mode) := by
  simp only [List.mem_cons, List.not_mem_nil, or_false, not_or] at hmode
  obtain ⟨hd, hr, hi2, hri⟩ := hmode
  unfold evaluate_mode
  rw [if_neg hd, if_neg hr, if_neg hi2, if_neg hri]

theorem build_plane_grid_121_ok (plane : String) (extent_a0 : ℝ) :
    build_plane_grid plane 0 extent_a0 121 =
      Except.ok (buildGridCore plane 0 extent_a0 121) := by
  unfold build_plane_grid
  rw [if_neg (by omega)]

theorem planeScore_eq_ok (n l m : ℤ) (mode : String) (extent_a0 : ℝ) (plane : String)
    (h : validQN n l m)
    (hm : mode ∈ (["density", "real", "imag", "real_imag"] : List String)) :
    ∃ s, planeScore n l m mode extent_a0 plane = Except.ok s ∧ 0 ≤ s := by
  unfold planeScore
  rw [build_plane_grid_121_ok, except_bind_ok,
    hydrogen_wavefunction_eq_ok n l m _ _ _ h, except_bind_ok]
  obtain ⟨md, hmd⟩ := evaluate_mode_ok_of_supported _ mode hm
  rw [hmd, except_map_ok]
  refine ⟨_, rfl, add_nonneg (percentile_nonneg _ _ ?_) (nanstd_nonneg _)⟩
  intro x hx
  rcases List.mem_map.mp hx with ⟨y, _, rfl⟩
  exact abs_nonneg y

/-! ## Claim C9 (`auto_plane_and_value` picks the first best-scoring plane) -/

/-- C9: for every valid `(n, l, m)`, supported mode and positive extent,
`auto_plane_and_value` returns value exactly `0.0` together with the first
plane, in the fixed candidate order `z, x, y`, whose score (99.5th
percentile of the field's absolute values plus the field's standard
deviation, `planeScore`) attains the maximum of the three central planes:
the returned plane attains the maximum and every earlier candidate scores
strictly less, so an earlier plane wins every tie. -/
theorem auto_plane_and_value_first_argmax (n l m : ℤ) (mode : String) (extent_a0 : ℝ)
    (h : validQN n l m)
    (hmode : mode ∈ (["density", "real", "imag", "real_imag"] : List String))
    (hext : 0 < extent_a0) :
    ∃ sz sx sy : ℝ,
      planeScore n l m mode extent_a0 "z" = Except.ok sz ∧
      planeScore n l m mode extent_a0 "x" = Except.ok sx ∧
      planeScore n l m mode extent_a0 "y" = Except.ok sy ∧
      ∃ p : String,
        auto_plane_and_value n l m mode extent_a0 = Except.ok (p, 0) ∧
        ((p = "z" ∧ sx ≤ sz ∧ sy ≤ sz) ∨
         (p = "x" ∧ sz < sx ∧ sy ≤ sx) ∨
         (p = "y" ∧ sz < sy ∧ sx < sy)) := by
  obtain ⟨sz, hsz, hsz0⟩ := planeScore_eq_ok n l m mode extent_a0 "z" h hmode
  obtain ⟨sx, hsx, _⟩ := planeScore_eq_ok n l m mode extent_a0 "x" h hmode
  obtain ⟨sy, hsy, _⟩ := planeScore_eq_ok n l m mode extent_a0 "y" h hmode
  refine ⟨sz, sx, sy, hsz, hsx, hsy, ?_⟩
  unfold auto_plane_and_value
  simp only [selectBest, hsz, hsx, hsy, except_bind_ok]
  rw [if_pos (show (-1 : ℝ) < sz by linarith)]
  by_cases hx : sz < sx
  · rw [if_pos hx]
    by_cases hy : sx < sy
    · rw [if_pos hy, except_map_ok]
      exact ⟨"y", rfl, Or.inr (Or.inr ⟨rfl, lt_trans hx hy, hy⟩)⟩
    · rw [if_neg hy, except_map_ok]
      exact ⟨"x", rfl, Or.inr (Or.inl ⟨rfl, hx, not_lt.mp hy⟩)⟩
  · rw [if_neg hx]
    by_cases hy : sz < sy
    · rw [if_pos hy, except_map_ok]
      exact ⟨"y", rfl, Or.inr (Or.inr ⟨rfl, hy, lt_of_le_of_lt (not_lt.mp hx) hy⟩)⟩
    · rw [if_neg hy, except_map_ok]
      exact ⟨"z", rfl, Or.inl ⟨rfl, not_lt.mp hx, not_lt.mp hy⟩⟩

/-- C9 witness: `auto_plane_and_value_first_argmax` at `(1, 0, 0)`, mode
`"real"`, extent 1. -/
theorem auto_plane_and_value_first_argmax_witness :
    validQN 1 0 0 ∧ ("real" : String) ∈ (["density", "real", "imag", "real_imag"] : List String) ∧
      (0 : ℝ) < 1 ∧
      ∃ sz sx sy : ℝ,
        planeScore 1 0 0 "real" 1 "z" = Except.ok sz ∧
        planeScore 1 0 0 "real" 1 "x" = Except.ok sx ∧
        planeScore 1 0 0 "real" 1 "y" = Except.ok sy ∧
        ∃ p : String,
          auto_plane_and_value 1 0 0 "real" 1 = Except.ok (p, 0) ∧
          ((p = "z" ∧ sx ≤ sz ∧ sy ≤ sz) ∨
           (p = "x" ∧ sz < sx ∧ sy ≤ sx) ∨
           (p = "y" ∧ sz < sy ∧ sx < sy)) :=
  ⟨by decide, by decide, by norm_num,
    auto_plane_and_value_first_argmax 1 0 0 "real" 1 (by decide) (by decide) (by norm_num)⟩

/-! ## Claim C10 (`auto_plane_and_value` on an unsupported mode) -/

/-- C10: for every valid `(n, l, m)` and every mode outside
`{density, real, imag, real_imag}` (for example `"radial_distribution"`),
`auto_plane_and_value` propagates the unsupported-mode error raised during
the first candidate-plane evaluation (plane `"z"`) and returns no plane. -/
theorem auto_plane_and_value_unsupported_mode (n l m : ℤ) (mode : String) (extent_a0 : ℝ)
    (h : validQN n l m)
    (hmode : mode ∉ (["density", "real", "imag", "real_imag"] : List String)) :
    auto_plane_and_value n l m mode extent_a0 =
      Except.error ("Unsupported render mode: " ++ mode) := by
  have hz : planeScore n l m mode extent_a0 "z" =
      Except.error ("Unsupported render mode: " ++ mode) := by
    unfold planeScore
    rw [build_plane_grid_121_ok, except_bind_ok,
      hydrogen_wavefunction_eq_ok n l m _ _ _ h, except_bind_ok,
      evaluate_mode_unsupported _ mode hmode, except_map_error]
  unfold auto_plane_and_value
  simp only [selectBest, hz, except_bind_error, except_map_error]

/-- C10 witness: `auto_plane_and_value_unsupported_mode` at `(1, 0, 0)` with
the mode `"radial_distribution"`. -/
theorem auto_plane_and_value_unsupported_mode_witness :
    validQN 1 0 0 ∧
      ("radial_distribution" : String) ∉
        (["density", "real", "imag", "real_imag"] : List String) ∧
      auto_plane_and_value 1 0 0 "radial_distribution" 5 =
        Except.error ("Unsupported render mode: " ++ "radial_distribution") :=
  ⟨by decide, by decide,
    auto_plane_and_value_unsupported_mode 1 0 0 "radial_distribution" 5 (by decide) (by decide)⟩
